import Mathlib

/-!
Verification of the aks-periscope diagnostic agent's event-trace sink,
trace collectors, exporter and system-perf collector, as shallow Lean
embeddings of the Go sources (pkg/collector/gadgets, pkg/collector,
pkg/exporter, pkg/utils).
-/

set_option autoImplicit false

namespace AKSPeriscope

/-! ## Go map model

Go maps are modelled as association lists without duplicate keys when
built through `mapStore`.  `mapLoad` is `m[k]` (comma-ok form), and
`mapStore` is `m[k] = v`: it replaces the binding in place when the key
is present and appends it otherwise.
-/

def mapLoad {α : Type} : List (String × α) → String → Option α
  | [], _ => none
  | (k', v) :: rest, k => if k' = k then some v else mapLoad rest k

def mapStore {α : Type} : List (String × α) → String → α → List (String × α)
  | [], k, v => [(k, v)]
  | (k', v') :: rest, k, v =>
    if k' = k then (k, v) :: rest else (k', v') :: mapStore rest k v

/-! ## Container data model

`containercollection.Container`, restricted to the fields the traced
code reads: identity (namespace, pod name, container name, pid) and the
host-network flag.
-/

structure Container where
  Namespace : String
  Podname : String
  Name : String
  Pid : Nat
  HostNetwork : Bool
  deriving DecidableEq, Repr

/-! ## Event Trace Collector (gadgets.IGTraceContainerCollector)

The `sync.Map` field `data` is modelled as an association list from
trace name to bucket; each bucket maps a derived event key to the event
content.  The nanosecond timestamp produced by `time.Now()` inside
`info` is an explicit `now` argument: two calls land in the same
timestamp-resolution window exactly when they receive the same `now`.
-/

abbrev Bucket := List (String × String)

abbrev CollectorData := List (String × Bucket)

/-- Go `info(container)`: the derived event key.  With no container it
is the timestamp alone; otherwise
`fmt.Sprintf("%s /namespaces/%s/pods/%s/containers/%s ", Namespace, Podname, Name, timestamp)`.
Note the pid and host-network flag are not part of the key. -/
def info (container : Option Container) (now : String) : String :=
  match container with
  | none => now
  | some c =>
    c.Namespace ++ " /namespaces/" ++ c.Podname ++ "/pods/" ++ c.Name ++
      "/containers/" ++ now ++ " "

/-- Go `IGTraceContainerCollector.PublishEvent`: `LoadOrStore` a fresh
singleton bucket for the trace name; when the bucket was already
present, write the derived key into it (later write wins) and `Store`
it back. -/
def publishEvent (data : CollectorData) (traceName : String)
    (container : Option Container) (now : String) (eventDetails : String) :
    CollectorData :=
  match mapLoad data traceName with
  | none => mapStore data traceName [(info container now, eventDetails)]
  | some events =>
    mapStore data traceName (mapStore events (info container now) eventDetails)

/-- Go `IGTraceContainerCollector.GetTracerData`: `Load` the bucket and
type-assert it to `map[string]string`.  When no event was ever
published for the trace name, `Load` yields a nil interface value and
the type assertion panics; that crash path is modelled as `none`
(the function does not return a mapping). -/
def GetTracerData (data : CollectorData) (tracerName : String) : Option Bucket :=
  mapLoad data tracerName

/-- One call to `PublishEvent`, with the timestamp `time.Now()` observed
inside `info` made explicit. -/
structure PublishCall where
  traceName : String
  container : Option Container
  now : String
  eventDetails : String

/-- Execute one `PublishEvent` call against the collector state. -/
def publishStep (d : CollectorData) (c : PublishCall) : CollectorData :=
  publishEvent d c.traceName c.container c.now c.eventDetails

/-- A sequence of `PublishEvent` calls against a freshly constructed
collector (`NewIGTraceContainerCollector` starts with an empty map). -/
def runPublishes (calls : List PublishCall) : CollectorData :=
  calls.foldl publishStep []

/-- The bucket at `t` retains an entry under key `k`. -/
def keyRetained (d : CollectorData) (t k : String) : Prop :=
  ∃ b, GetTracerData d t = some b ∧ ∃ v, mapLoad b k = some v

/-- The derived key of a publish call. -/
def PublishCall.key (c : PublishCall) : String := info c.container c.now

/-! ## Trace events and the DNS / TCP probe callbacks

`dnstypes.Event` / `tcptypes.Event` both embed `eventtypes.Event`,
restricted here to the fields the traced code writes (node, namespace,
pod, container) plus an opaque payload for the protocol-specific rest.
-/

structure TraceEvent where
  Node : String
  Namespace : String
  Pod : String
  Container : String
  Payload : String
  deriving DecidableEq, Repr

/-- Models `eventtypes.EventString` (external library): a rendering of
every field of the event. -/
def EventString (e : TraceEvent) : String :=
  "node=" ++ e.Node ++ ";namespace=" ++ e.Namespace ++ ";pod=" ++ e.Pod ++
    ";container=" ++ e.Container ++ ";" ++ e.Payload

def dnsTraceName : String := "ig-dnstrace"

def tcpTraceName : String := "ig-tcptrace"

/-- The enrichment step of Go `dnsEventCallback`
(inspektor_trace_dns_collector_linux.go): set `event.Node` to the host
node name; when the container is not host-network, also copy namespace,
pod and container names from the container record. -/
def enrichDNSEvent (hostNodeName : String) (container : Container)
    (event : TraceEvent) : TraceEvent :=
  let e := { event with Node := hostNodeName }
  if !container.HostNetwork then
    { e with Namespace := container.Namespace, Pod := container.Podname,
             Container := container.Name }
  else e

/-- Go `dnsEventCallback`: enrich the raw event, then publish its
stringified form under this collector's name with the container. -/
def dnsEventCallback (hostNodeName : String) (data : CollectorData)
    (container : Container) (event : TraceEvent) (now : String) : CollectorData :=
  publishEvent data dnsTraceName (some container) now
    (EventString (enrichDNSEvent hostNodeName container event))

/-- Go `tcpEventCallback` (inside `InspektorGadgetTCPTraceCollector.Collect`):
publishes the stringified raw event under a nil container; no enrichment
is performed. -/
def tcpEventCallback (data : CollectorData) (event : TraceEvent) (now : String) :
    CollectorData :=
  publishEvent data tcpTraceName none now (EventString event)

/-! ## Collect lifecycles of the DNS and TCP trace collectors

`Collect` is embedded as a function of an environment recording the
outcome of each external initialization step; alongside the returned
error it produces the ordered trace of resource acquisitions and of the
releases performed by the stacked `defer` statements (LIFO) on that
exit path. -/

inductive Resource where
  | containerCollection
  | dnsTracer
  | coreTCPTracer
  | standardTCPTracer
  | tracerConnection
  deriving DecidableEq, Repr

inductive Action where
  | acquire (r : Resource)
  | release (r : Resource)
  deriving DecidableEq, Repr

structure DNSCollectEnv where
  initContainerCollection : Except String Unit
  newDNSTracer : Except String Unit
  connectToContainerCollection : Except String Unit

/-- Go `InspektorGadgetDNSTraceCollector.Collect`. -/
def dnsCollect (env : DNSCollectEnv) : Except String Unit × List Action :=
  match env.initContainerCollection with
  | .error e => (.error ("failed to initialize container collection: " ++ e), [])
  | .ok _ =>
    match env.newDNSTracer with
    | .error e =>
      (.error ("failed to start dns tracer: " ++ e),
        [.acquire .containerCollection, .release .containerCollection])
    | .ok _ =>
      match env.connectToContainerCollection with
      | .error e =>
        (.error ("failed to connect network tracer - dns tracer: " ++ e),
          [.acquire .containerCollection, .acquire .dnsTracer,
           .release .dnsTracer, .release .containerCollection])
      | .ok _ =>
        (.ok (),
          [.acquire .containerCollection, .acquire .dnsTracer,
           .acquire .tracerConnection, .release .tracerConnection,
           .release .dnsTracer, .release .containerCollection])

structure TCPCollectEnv where
  initContainerCollection : Except String Unit
  newCoreTracer : Except String Unit
  newStandardTracer : Except String Unit

/-- Go `InspektorGadgetTCPTraceCollector.Collect`: on core-tracer
construction failure it falls back to the standard tracer before
giving up. -/
def tcpCollect (env : TCPCollectEnv) : Except String Unit × List Action :=
  match env.initContainerCollection with
  | .error e => (.error ("failed to initialize container collection: " ++ e), [])
  | .ok _ =>
    match env.newCoreTracer with
    | .ok _ =>
      (.ok (),
        [.acquire .containerCollection, .acquire .coreTCPTracer,
         .release .coreTCPTracer, .release .containerCollection])
    | .error _ =>
      match env.newStandardTracer with
      | .ok _ =>
        (.ok (),
          [.acquire .containerCollection, .acquire .standardTCPTracer,
           .release .standardTCPTracer, .release .containerCollection])
      | .error e =>
        (.error ("failed to create a tracer: " ++ e),
          [.acquire .containerCollection, .release .containerCollection])

def acquiredResources (tr : List Action) : List Resource :=
  tr.filterMap fun a => match a with | .acquire r => some r | .release _ => none

def releasedResources (tr : List Action) : List Resource :=
  tr.filterMap fun a => match a with | .release r => some r | .acquire _ => none

/-! ## Azure blob exporter (pkg/exporter)

`createContainerURL`, `Export` and `ExportReader`, instrumented with the
list of network calls each path performs. -/

structure ExporterRuntimeInfo where
  StorageAccountName : String
  StorageSasKey : String
  StorageContainerName : String
  StorageSasKeyType : String
  HostNodeName : String

inductive CreateContainerOutcome where
  | success
  | alreadyExists
  | storageError (e : String)
  | otherError (e : String)

inductive NetCall where
  | createContainer
  | uploadBlob (blob : String) (content : String)
  deriving DecidableEq, Repr

structure ExportEnv where
  createOutcome : CreateContainerOutcome
  upload : String → String → Except String Unit

/-- Go `storageKeyTypes`: the SAS-key types for which container creation
is skipped. -/
def storageKeyTypes : List (String × String) := [("Container", "Container")]

/-- Go `createContainerURL`: fail before any network call when account
name, SAS key or container name is empty; otherwise create the
container (an already-exists response is success, any other creation
error is fatal), unless the SAS-key type says to skip creation. -/
def createContainerURL (ri : ExporterRuntimeInfo) (env : ExportEnv) :
    Except String Unit × List NetCall :=
  if ri.StorageAccountName = "" ∨ ri.StorageSasKey = "" ∨
      ri.StorageContainerName = "" then
    (.error "Storage not configured.", [])
  else if (mapLoad storageKeyTypes ri.StorageSasKeyType).isSome then
    (.ok (), [])
  else
    match env.createOutcome with
    | .success => (.ok (), [.createContainer])
    | .alreadyExists => (.ok (), [.createContainer])
    | .storageError e =>
      (.error ("create container with storage error: " ++ e), [.createContainer])
    | .otherError e => (.error ("create container: " ++ e), [.createContainer])

/-- Go `strings.Replace(creationTime, ":", "-", -1)`: the pattern is the
single character `:`, so the replacement is a character map. -/
def replaceColonsWithDashes (s : String) : String :=
  ⟨s.data.map fun ch => if ch = ':' then '-' else ch⟩

/-- The blob key `<run-timestamp-with-colons-as-dashes>/<node-name>/<item-name>`. -/
def blobName (creationTime hostNodeName key : String) : String :=
  replaceColonsWithDashes creationTime ++ "/" ++ hostNodeName ++ "/" ++ key

/-- The upload loop of Go `AzureBlobExporter.Export`: upload each item
in iteration order; the first failure is wrapped with the item name and
returned, attempting nothing further. -/
def uploadItems (env : ExportEnv) (ri : ExporterRuntimeInfo) (creationTime : String) :
    List (String × String) → Except String Unit × List NetCall
  | [] => (.ok (), [])
  | (key, data) :: rest =>
    match env.upload (blobName creationTime ri.HostNodeName key) data with
    | .error e =>
      (.error ("append file " ++ key ++ " to blob: " ++ e),
        [.uploadBlob (blobName creationTime ri.HostNodeName key) data])
    | .ok _ =>
      let r := uploadItems env ri creationTime rest
      (r.1, .uploadBlob (blobName creationTime ri.HostNodeName key) data :: r.2)

/-- Go `AzureBlobExporter.Export`, with the producer's `GetData` given
as a list of (key, content) items in iteration order. -/
def Export (ri : ExporterRuntimeInfo) (env : ExportEnv) (creationTime : String)
    (items : List (String × String)) : Except String Unit × List NetCall :=
  match createContainerURL ri env with
  | (.error e, calls) => (.error e, calls)
  | (.ok _, calls) =>
    let r := uploadItems env ri creationTime items
    (r.1, calls ++ r.2)

/-- Go `AzureBlobExporter.ExportReader`. -/
def ExportReader (ri : ExporterRuntimeInfo) (env : ExportEnv) (creationTime : String)
    (name content : String) : Except String Unit × List NetCall :=
  match createContainerURL ri env with
  | (.error e, calls) => (.error e, calls)
  | (.ok _, calls) =>
    (env.upload (blobName creationTime ri.HostNodeName name) content,
      calls ++ [.uploadBlob (blobName creationTime ri.HostNodeName name) content])

/-! ## SystemPerf collector (pkg/collector/systemperf_collector.go) -/

/-- Modelled from the spec: `utils.Contains` is called by
`SystemPerfCollector.CheckSupported` but its source is not available
here.  The spec describes the check as the exclusion list naming the
value ("an exclusion list names this collector"), i.e. membership of
the value in the list. -/
def Contains (list : List String) (value : String) : Bool :=
  list.contains value

/-- Go `SystemPerfCollector.CheckSupported`: `some msg` models returning
a non-nil error with message `msg`; `none` models returning nil. -/
def SystemPerfCollector.CheckSupported (collectorList : List String) : Option String :=
  if Contains collectorList "connectedCluster" then
    some ("Not included because 'connectedCluster' is in COLLECTOR_LIST variable. Included values: "
      ++ String.intercalate " " collectorList)
  else
    none

structure NodeMetricSample where
  Name : String
  CpuMilli : Int
  MemoryAsInt64 : Option Int

structure ContainerMetricSample where
  Name : String
  CpuMilli : Int
  MemoryAsInt64 : Option Int

structure NodeMetrics where
  NodeName : String
  CPUUsage : Int
  MemoryUsage : Int

structure PodMetrics where
  ContainerName : String
  CPUUsage : Int
  MemoryUsage : Int

structure SysPerfEnv where
  newForConfig : Except String Unit
  nodeMetricsList : Except String (List NodeMetricSample)
  podMetricsList : Except String (List (List ContainerMetricSample))

/-- Models `json.Marshal` of the node-metrics slice (marshalling these
struct types cannot fail, so the marshal error branch is vacuous). -/
def nodeMetricsJson (l : List NodeMetrics) : String :=
  "[" ++ String.intercalate ","
    (l.map fun nm =>
      "\x7b\"name\":\"" ++ nm.NodeName ++ "\",\"cpuUsage\":" ++ toString nm.CPUUsage ++
        ",\"memoryUsage\":" ++ toString nm.MemoryUsage ++ "\x7d") ++ "]"

/-- Models `json.Marshal` of the pod-metrics slice. -/
def podMetricsJson (l : List PodMetrics) : String :=
  "[" ++ String.intercalate ","
    (l.map fun pm =>
      "\x7b\"name\":\"" ++ pm.ContainerName ++ "\",\"cpuUsage\":" ++ toString pm.CPUUsage ++
        ",\"memoryUsage\":" ++ toString pm.MemoryUsage ++ "\x7d") ++ "]"

/-- The node loop of `SystemPerfCollector.Collect`: `none` models the
loop exiting early because some `AsInt64` call reported not-ok. -/
def buildNodeResults : List NodeMetricSample → Option (List NodeMetrics)
  | [] => some []
  | s :: rest =>
    match s.MemoryAsInt64 with
    | none => none
    | some mem =>
      match buildNodeResults rest with
      | none => none
      | some tail =>
        some ({ NodeName := s.Name, CPUUsage := s.CpuMilli, MemoryUsage := mem } :: tail)

/-- The nested pod/container loop of `SystemPerfCollector.Collect`. -/
def buildPodResults : List (List ContainerMetricSample) → Option (List PodMetrics)
  | [] => some []
  | pod :: rest =>
    match buildContainerResults pod with
    | none => none
    | some these =>
      match buildPodResults rest with
      | none => none
      | some tail => some (these ++ tail)
where
  buildContainerResults : List ContainerMetricSample → Option (List PodMetrics)
    | [] => some []
    | c :: cs =>
      match c.MemoryAsInt64 with
      | none => none
      | some mem =>
        match buildContainerResults cs with
        | none => none
        | some tail =>
          some ({ ContainerName := c.Name, CPUUsage := c.CpuMilli,
                  MemoryUsage := mem } :: tail)

/-- Go `SystemPerfCollector.Collect`.  The `err` variable of the source
is tracked faithfully: when a node's `AsInt64` reports not-ok, the
source executes `return err` while `err` still holds the nil result of
the preceding successful `List` call, so that path returns success and
stores nothing. -/
def SystemPerfCollector.Collect (env : SysPerfEnv) :
    Except String Unit × List (String × String) :=
  match env.newForConfig with
  | .error e => (.error ("metrics for config error: " ++ e), [])
  | .ok _ =>
    match env.nodeMetricsList with
    | .error e => (.error ("node metrics error: " ++ e), [])
    | .ok nodeItems =>
      match buildNodeResults nodeItems with
      | none => (.ok (), [])
      | some noderesult =>
        let data₁ := mapStore [] "nodes" (nodeMetricsJson noderesult)
        match env.podMetricsList with
        | .error e => (.error ("pod metrics failure: " ++ e), data₁)
        | .ok podItems =>
          match buildPodResults podItems with
          | none =>
            -- fmt.Errorf("usage memory failure: %w", err) with err == nil
            (.error "usage memory failure: %!w(<nil>)", data₁)
          | some podresult =>
            (.ok (), mapStore data₁ "pods" (podMetricsJson podresult))

/-! ## Helper lemmas -/

@[simp] theorem mapLoad_nil {α : Type} (k : String) :
    mapLoad ([] : List (String × α)) k = none := rfl

@[simp] theorem mapLoad_cons {α : Type} (k' k : String) (v : α)
    (rest : List (String × α)) :
    mapLoad ((k', v) :: rest) k = if k' = k then some v else mapLoad rest k := rfl

theorem mapLoad_mapStore_self {α : Type} (m : List (String × α)) (k : String) (v : α) :
    mapLoad (mapStore m k v) k = some v := by
  induction m with
  | nil => simp [mapStore]
  | cons p rest ih =>
    obtain ⟨k', v'⟩ := p
    by_cases h : k' = k <;> simp [mapStore, h, ih]

theorem mapLoad_mapStore_ne {α : Type} (m : List (String × α)) (k k' : String) (v : α)
    (h : k' ≠ k) : mapLoad (mapStore m k v) k' = mapLoad m k' := by
  induction m with
  | nil => simp [mapStore, Ne.symm h]
  | cons p rest ih =>
    obtain ⟨k₀, v₀⟩ := p
    by_cases h₀ : k₀ = k
    · subst h₀
      simp [mapStore, Ne.symm h]
    · simp [mapStore, h₀, ih]

theorem isSome_mapLoad_mapStore {α : Type} (m : List (String × α)) (k k' : String)
    (v : α) (h : (mapLoad m k).isSome) : (mapLoad (mapStore m k' v) k).isSome := by
  by_cases hk : k' = k
  · subst hk
    simp [mapLoad_mapStore_self]
  · rwa [mapLoad_mapStore_ne _ _ _ _ fun hh => hk hh.symm]

theorem getTracerData_publishEvent_ne (d : CollectorData) (tn t : String)
    (c : Option Container) (now v : String) (h : tn ≠ t) :
    GetTracerData (publishEvent d tn c now v) t = GetTracerData d t := by
  unfold publishEvent GetTracerData
  cases mapLoad d tn <;> exact mapLoad_mapStore_ne _ _ _ _ (Ne.symm h)

theorem keyRetained_publishEvent_self (d : CollectorData) (t : String)
    (c : Option Container) (now v : String) :
    keyRetained (publishEvent d t c now v) t (info c now) := by
  unfold keyRetained publishEvent GetTracerData
  cases mapLoad d t with
  | none =>
    exact ⟨[(info c now, v)], mapLoad_mapStore_self .., v, by simp⟩
  | some events =>
    exact ⟨_, mapLoad_mapStore_self .., v, mapLoad_mapStore_self ..⟩

theorem keyRetained_publishEvent (d : CollectorData) (tn t k : String)
    (c : Option Container) (now v : String) (h : keyRetained d t k) :
    keyRetained (publishEvent d tn c now v) t k := by
  obtain ⟨b, hb, w, hw⟩ := h
  by_cases ht : tn = t
  · subst ht
    unfold GetTracerData at hb
    unfold keyRetained publishEvent GetTracerData
    rw [hb]
    have hsome : (mapLoad (mapStore b (info c now) v) k).isSome :=
      isSome_mapLoad_mapStore _ _ _ _ (by simp [hw])
    obtain ⟨w', hw'⟩ := Option.isSome_iff_exists.mp hsome
    exact ⟨_, mapLoad_mapStore_self .., w', hw'⟩
  · exact ⟨b, by rwa [getTracerData_publishEvent_ne _ _ _ _ _ _ ht], w, hw⟩

theorem keyRetained_foldl (calls : List PublishCall) (d : CollectorData)
    (t k : String) (h : keyRetained d t k) :
    keyRetained (calls.foldl publishStep d) t k := by
  induction calls generalizing d with
  | nil => exact h
  | cons c rest ih =>
    exact ih _ (keyRetained_publishEvent _ _ _ _ _ _ _ h)

theorem keyRetained_of_mem (calls : List PublishCall) (d : CollectorData)
    (t : String) (c : PublishCall) (hc : c ∈ calls) (ht : c.traceName = t) :
    keyRetained (calls.foldl publishStep d) t c.key := by
  induction calls generalizing d with
  | nil => cases hc
  | cons c₀ rest ih =>
    rcases List.mem_cons.mp hc with h | h
    · subst h
      rw [List.foldl_cons]
      apply keyRetained_foldl
      rw [← ht]
      exact keyRetained_publishEvent_self d c.traceName c.container c.now c.eventDetails
    · exact ih _ h

theorem getTracerData_none_foldl (calls : List PublishCall) (d : CollectorData)
    (t : String) (h : GetTracerData d t = none)
    (hall : ∀ c ∈ calls, c.traceName ≠ t) :
    GetTracerData (calls.foldl publishStep d) t = none := by
  induction calls generalizing d with
  | nil => exact h
  | cons c rest ih =>
    refine ih _ ?_ fun c' hc' => hall c' (by simp [hc'])
    rw [publishStep, getTracerData_publishEvent_ne _ _ _ _ _ _ (hall c (by simp))]
    exact h

/-! ## Concrete values used by counterexamples and witnesses -/

/-- A container record. -/
def containerPid101 : Container :=
  { Namespace := "kube-system", Podname := "coredns-0", Name := "coredns",
    Pid := 101, HostNetwork := false }

/-- Same namespace, pod and container name as `containerPid101`, but a
different process id. -/
def containerPid202 : Container :=
  { Namespace := "kube-system", Podname := "coredns-0", Name := "coredns",
    Pid := 202, HostNetwork := false }

/-- A container in namespace `app-a`. -/
def containerNsA : Container :=
  { Namespace := "app-a", Podname := "web-0", Name := "web",
    Pid := 11, HostNetwork := false }

/-- Same as `containerNsA` except for the namespace. -/
def containerNsB : Container :=
  { Namespace := "app-b", Podname := "web-0", Name := "web",
    Pid := 11, HostNetwork := false }

/-- One concrete nanosecond timestamp string. -/
def sameStamp : String := "2023-01-01T00:00:00.000000001Z"

/-! ## Claims about the Event Trace Collector -/

/-- C1: publishing two events for the same trace and the same container
within the same timestamp-resolution window (identical derived key)
into a fresh collector leaves exactly one retained entry in the bucket,
and its content equals the later published content. -/
theorem publishEvent_same_key_later_wins (t : String) (c : Option Container)
    (now v₁ v₂ : String) :
    GetTracerData (publishEvent (publishEvent [] t c now v₁) t c now v₂) t
      = some [(info c now, v₂)] := by
  simp [publishEvent, GetTracerData, mapLoad, mapStore]

/-- C2 counterexample: two events for the same trace carrying the same
nanosecond timestamp, from two distinct containers (distinct process
id), leave one single bucket entry, not two: the derived key omits the
process id. -/
theorem publishEvent_distinct_pid_collides :
    containerPid101 ≠ containerPid202 ∧
    GetTracerData
      (publishEvent
        (publishEvent [] dnsTraceName (some containerPid101) sameStamp "event-1")
        dnsTraceName (some containerPid202) sameStamp "event-2") dnsTraceName
      = some [(info (some containerPid101) sameStamp, "event-2")] := by
  constructor
  · decide
  · decide

/-- C2 amended: two events for the same trace with containers whose
derived keys differ — the key contains the namespace, pod name and
container name, but not the process id or host-network flag — yield two
distinct bucket entries even with the same nanosecond timestamp. -/
theorem publishEvent_distinct_keys_two_entries (t : String) (c₁ c₂ : Container)
    (now v₁ v₂ : String) (h : info (some c₁) now ≠ info (some c₂) now) :
    GetTracerData
      (publishEvent (publishEvent [] t (some c₁) now v₁) t (some c₂) now v₂) t
      = some [(info (some c₁) now, v₁), (info (some c₂) now, v₂)] := by
  simp [publishEvent, GetTracerData, mapLoad, mapStore, h]

/-- Witness for C2 amended: containers differing in namespace have
distinct derived keys and produce two entries. -/
theorem publishEvent_distinct_keys_two_entries_witness :
    info (some containerNsA) sameStamp ≠ info (some containerNsB) sameStamp ∧
    GetTracerData
      (publishEvent
        (publishEvent [] dnsTraceName (some containerNsA) sameStamp "e1")
        dnsTraceName (some containerNsB) sameStamp "e2") dnsTraceName
      = some [(info (some containerNsA) sameStamp, "e1"),
              (info (some containerNsB) sameStamp, "e2")] :=
  ⟨by decide,
    publishEvent_distinct_keys_two_entries dnsTraceName containerNsA containerNsB
      sameStamp "e1" "e2" (by decide)⟩

/-- C3: after any sequence of publish calls on a fresh collector,
`GetTracerData t` fails fast (hits the nil-interface type-assertion
panic, modelled as `none`) exactly when no event was ever published for
`t`; with at least one published event it returns the bucket, and that
bucket retains an entry for every key published for `t`. -/
theorem GetTracerData_fails_fast (calls : List PublishCall) (t : String) :
    (GetTracerData (runPublishes calls) t = none ↔ ∀ c ∈ calls, c.traceName ≠ t) ∧
    ((∃ c ∈ calls, c.traceName = t) →
      ∃ b, GetTracerData (runPublishes calls) t = some b ∧
        ∀ c ∈ calls, c.traceName = t → ∃ v, mapLoad b c.key = some v) := by
  constructor
  · constructor
    · intro hnone c hc ht
      obtain ⟨b, hb, -⟩ := keyRetained_of_mem calls [] t c hc ht
      rw [runPublishes] at hnone
      rw [hnone] at hb
      cases hb
    · intro hall
      exact getTracerData_none_foldl calls [] t rfl hall
  · rintro ⟨c₀, hc₀, ht₀⟩
    obtain ⟨b, hb, -⟩ := keyRetained_of_mem calls [] t c₀ hc₀ ht₀
    refine ⟨b, hb, fun c hc ht => ?_⟩
    obtain ⟨b', hb', v, hv⟩ := keyRetained_of_mem calls [] t c hc ht
    rw [hb] at hb'
    cases hb'
    exact ⟨v, hv⟩

/-- A concrete publish call for the C3 witness. -/
def tcpWitnessCall : PublishCall :=
  { traceName := tcpTraceName, container := none, now := sameStamp,
    eventDetails := "tcp-event" }

/-- Witness for C3: with one published TCP event, reading an
unpublished trace name crashes (`none`) and reading the published one
returns a bucket retaining the event's key. -/
theorem GetTracerData_fails_fast_witness :
    GetTracerData (runPublishes [tcpWitnessCall]) dnsTraceName = none ∧
    (∃ b, GetTracerData (runPublishes [tcpWitnessCall]) tcpTraceName = some b ∧
      ∀ c ∈ [tcpWitnessCall], c.traceName = tcpTraceName →
        ∃ v, mapLoad b c.key = some v) :=
  ⟨(GetTracerData_fails_fast [tcpWitnessCall] dnsTraceName).1.mpr (by decide),
   (GetTracerData_fails_fast [tcpWitnessCall] tcpTraceName).2
     ⟨tcpWitnessCall, by simp, rfl⟩⟩

/-! ## Claims about the DNS / TCP callbacks and Collect lifecycles -/

/-- A raw event as delivered by a probe, before any enrichment. -/
def rawProbeEvent : TraceEvent :=
  { Node := "", Namespace := "", Pod := "", Container := "",
    Payload := "connect 10.0.0.1:443" }

/-- A host-network container. -/
def hostNetContainer : Container :=
  { Namespace := "kube-system", Podname := "kube-proxy-7", Name := "kube-proxy",
    Pid := 55, HostNetwork := true }

/-- C4 counterexample: the TCP callback forwards the stringified raw
event, keyed by the timestamp alone (nil container); the forwarded
content is not the stringification of any node-enriched event — the
raw node field (empty) survives unchanged. -/
theorem tcpEventCallback_no_enrichment :
    GetTracerData (tcpEventCallback [] rawProbeEvent sameStamp) tcpTraceName
      = some [(sameStamp, EventString rawProbeEvent)] ∧
    EventString rawProbeEvent
      ≠ EventString { rawProbeEvent with Node := "aks-node-1" } := by
  constructor
  · decide
  · decide

/-- C4 amended: the DNS callback enriches every raw event with the host
node identity and, when the container is not host-network, with its
namespace, pod and container names, before forwarding the stringified
enriched event under `ig-dnstrace` keyed by the container; the TCP
callback forwards the stringified raw event unenriched under
`ig-tcptrace`, keyed by the timestamp alone. -/
theorem trace_callbacks_enrichment (hostNodeName : String) (c : Container)
    (e : TraceEvent) (now : String) :
    (c.HostNetwork = false →
      GetTracerData (dnsEventCallback hostNodeName [] c e now) dnsTraceName
        = some [(info (some c) now,
            EventString { e with
                            Node := hostNodeName, Namespace := c.Namespace,
                            Pod := c.Podname, Container := c.Name })]) ∧
    (c.HostNetwork = true →
      GetTracerData (dnsEventCallback hostNodeName [] c e now) dnsTraceName
        = some [(info (some c) now, EventString { e with Node := hostNodeName })]) ∧
    GetTracerData (tcpEventCallback [] e now) tcpTraceName
      = some [(now, EventString e)] := by
  refine ⟨fun h => ?_, fun h => ?_, ?_⟩ <;>
    simp [dnsEventCallback, tcpEventCallback, enrichDNSEvent, publishEvent,
      GetTracerData, mapLoad, mapStore, info, *]

/-- Witness for C4 amended: one non-host-network and one host-network
container, with a concrete raw event. -/
theorem trace_callbacks_enrichment_witness :
    (containerNsA.HostNetwork = false ∧
      GetTracerData (dnsEventCallback "aks-node-1" [] containerNsA rawProbeEvent sameStamp)
          dnsTraceName
        = some [(info (some containerNsA) sameStamp,
            EventString { rawProbeEvent with
                            Node := "aks-node-1",
                            Namespace := containerNsA.Namespace,
                            Pod := containerNsA.Podname,
                            Container := containerNsA.Name })]) ∧
    (hostNetContainer.HostNetwork = true ∧
      GetTracerData (dnsEventCallback "aks-node-1" [] hostNetContainer rawProbeEvent sameStamp)
          dnsTraceName
        = some [(info (some hostNetContainer) sameStamp,
            EventString { rawProbeEvent with Node := "aks-node-1" })]) :=
  ⟨⟨by decide,
    (trace_callbacks_enrichment "aks-node-1" containerNsA rawProbeEvent sameStamp).1
      (by decide)⟩,
   ⟨by decide,
    (trace_callbacks_enrichment "aks-node-1" hostNetContainer rawProbeEvent sameStamp).2.1
      (by decide)⟩⟩

/-- C5: with the container collection initialized, TCP `Collect`
succeeds whenever the core tracer construction succeeds; when the core
tracer fails it builds the standard (fallback) tracer and succeeds with
it; it returns an initialization error only when both constructions
fail, and that error wraps the cause. -/
theorem tcpCollect_fallback (env : TCPCollectEnv)
    (hcc : env.initContainerCollection = .ok ()) :
    (∀ u : Unit, env.newCoreTracer = .ok u → (tcpCollect env).1 = .ok ()) ∧
    (∀ e, env.newCoreTracer = .error e →
      ∀ u : Unit, env.newStandardTracer = .ok u →
        (tcpCollect env).1 = .ok () ∧
        Action.acquire Resource.standardTCPTracer ∈ (tcpCollect env).2) ∧
    (∀ e₁ e₂, env.newCoreTracer = .error e₁ → env.newStandardTracer = .error e₂ →
      (tcpCollect env).1 = .error ("failed to create a tracer: " ++ e₂)) := by
  refine ⟨fun u h => ?_, fun e he u hu => ?_, fun e₁ e₂ h₁ h₂ => ?_⟩ <;>
    simp [tcpCollect, hcc, *]

/-- Environment for the C5 witness: core tracer construction fails,
standard tracer construction succeeds. -/
def tcpFallbackEnv : TCPCollectEnv :=
  { initContainerCollection := .ok (), newCoreTracer := .error "bpf not supported",
    newStandardTracer := .ok () }

/-- Witness for C5: the fallback path succeeds and acquires the
standard tracer. -/
theorem tcpCollect_fallback_witness :
    (tcpCollect tcpFallbackEnv).1 = .ok () ∧
    Action.acquire Resource.standardTCPTracer ∈ (tcpCollect tcpFallbackEnv).2 :=
  (tcpCollect_fallback tcpFallbackEnv rfl).2.1 "bpf not supported" rfl () rfl

/-- C6: on every exit path of the DNS and TCP `Collect` functions the
released resources are exactly the acquired ones in reverse acquisition
order; on the full-success DNS path that order is probe connection,
then probe, then container collection. -/
theorem collect_teardown_reverse_order :
    (∀ env : DNSCollectEnv,
      releasedResources (dnsCollect env).2
        = (acquiredResources (dnsCollect env).2).reverse) ∧
    (∀ env : TCPCollectEnv,
      releasedResources (tcpCollect env).2
        = (acquiredResources (tcpCollect env).2).reverse) ∧
    releasedResources (dnsCollect ⟨.ok (), .ok (), .ok ()⟩).2
      = [Resource.tracerConnection, Resource.dnsTracer,
         Resource.containerCollection] := by
  refine ⟨fun env => ?_, fun env => ?_, by decide⟩
  · obtain ⟨i, t, c⟩ := env
    cases i <;> cases t <;> cases c <;> rfl
  · obtain ⟨i, t, c⟩ := env
    cases i <;> cases t <;> cases c <;> rfl

/-! ## Claims about the exporter -/

theorem uploadItems_fail_fast (env : ExportEnv) (ri : ExporterRuntimeInfo)
    (creationTime : String) (pre post : List (String × String)) (k v e : String)
    (hok : ∀ p ∈ pre, env.upload (blobName creationTime ri.HostNodeName p.1) p.2 = .ok ())
    (hfail : env.upload (blobName creationTime ri.HostNodeName k) v = .error e) :
    uploadItems env ri creationTime (pre ++ (k, v) :: post)
      = (.error ("append file " ++ k ++ " to blob: " ++ e),
         pre.map (fun p => NetCall.uploadBlob (blobName creationTime ri.HostNodeName p.1) p.2)
           ++ [NetCall.uploadBlob (blobName creationTime ri.HostNodeName k) v]) := by
  induction pre with
  | nil => simp [uploadItems, hfail]
  | cons p rest ih =>
    obtain ⟨pk, pv⟩ := p
    have h₁ := hok (pk, pv) (by simp)
    have h₂ := ih fun q hq => hok q (by simp [hq])
    simp [uploadItems, h₁, h₂]

/-- C7: once the container stage has succeeded, `Export` uploads the
producer's items one at a time in iteration order; at the first item
whose upload fails it returns an error wrapped with that item's name,
and the network calls performed are exactly the uploads of the
preceding items plus the failing one — no later item is attempted. -/
theorem Export_fail_fast (ri : ExporterRuntimeInfo) (env : ExportEnv)
    (creationTime : String) (pre post : List (String × String)) (k v e : String)
    (hok : ∀ p ∈ pre, env.upload (blobName creationTime ri.HostNodeName p.1) p.2 = .ok ())
    (hfail : env.upload (blobName creationTime ri.HostNodeName k) v = .error e)
    (hcc : (createContainerURL ri env).1 = .ok ()) :
    (Export ri env creationTime (pre ++ (k, v) :: post)).1
      = .error ("append file " ++ k ++ " to blob: " ++ e) ∧
    (Export ri env creationTime (pre ++ (k, v) :: post)).2
      = (createContainerURL ri env).2
          ++ pre.map (fun p => NetCall.uploadBlob (blobName creationTime ri.HostNodeName p.1) p.2)
          ++ [NetCall.uploadBlob (blobName creationTime ri.HostNodeName k) v] := by
  rcases hu : createContainerURL ri env with ⟨r, calls⟩
  rw [hu] at hcc
  simp only at hcc
  subst hcc
  have h₂ := uploadItems_fail_fast env ri creationTime pre post k v e hok hfail
  simp [Export, hu, h₂]

/-- Exporter runtime configuration for the C7 witness (SAS-key type
`Container`, so container creation is skipped). -/
def exportWitnessRI : ExporterRuntimeInfo :=
  { StorageAccountName := "acct", StorageSasKey := "?sv=1", StorageContainerName := "ctr",
    StorageSasKeyType := "Container", HostNodeName := "aks-node-1" }

/-- Export environment for the C7 witness: the upload of the blob named
after item `item-bad` fails; every other upload succeeds. -/
def exportWitnessEnv : ExportEnv :=
  { createOutcome := .success,
    upload := fun blob _ =>
      if blob = blobName "2023-01-01T10:00:00Z" "aks-node-1" "item-bad" then
        .error "network timeout"
      else .ok () }

/-- Witness for C7: items `[item-a, item-bad, item-c]`; export fails on
`item-bad` with the wrapped error, having uploaded only `item-a` and
attempted `item-bad` — never `item-c`. -/
theorem Export_fail_fast_witness :
    (Export exportWitnessRI exportWitnessEnv "2023-01-01T10:00:00Z"
        ([("item-a", "da")] ++ ("item-bad", "db") :: [("item-c", "dc")])).1
      = .error ("append file " ++ "item-bad" ++ " to blob: " ++ "network timeout") ∧
    (Export exportWitnessRI exportWitnessEnv "2023-01-01T10:00:00Z"
        ([("item-a", "da")] ++ ("item-bad", "db") :: [("item-c", "dc")])).2
      = (createContainerURL exportWitnessRI exportWitnessEnv).2
          ++ [("item-a", "da")].map
              (fun p => NetCall.uploadBlob
                (blobName "2023-01-01T10:00:00Z" "aks-node-1" p.1) p.2)
          ++ [NetCall.uploadBlob
                (blobName "2023-01-01T10:00:00Z" "aks-node-1" "item-bad") "db"] :=
  Export_fail_fast exportWitnessRI exportWitnessEnv "2023-01-01T10:00:00Z"
    [("item-a", "da")] [("item-c", "dc")] "item-bad" "db" "network timeout"
    (by
      intro p hp
      rw [List.mem_singleton.mp hp]
      rfl)
    rfl rfl

/-- C8: when the storage account name (or SAS key or container name) is
empty, `Export` and `ExportReader` fail with the storage-not-configured
error and perform no network calls at all. -/
theorem Export_storage_not_configured (ri : ExporterRuntimeInfo) (env : ExportEnv)
    (creationTime name content : String) (items : List (String × String))
    (h : ri.StorageAccountName = "" ∨ ri.StorageSasKey = "" ∨
      ri.StorageContainerName = "") :
    Export ri env creationTime items = (.error "Storage not configured.", []) ∧
    ExportReader ri env creationTime name content
      = (.error "Storage not configured.", []) := by
  have hc : createContainerURL ri env = (.error "Storage not configured.", []) := by
    unfold createContainerURL
    rw [if_pos h]
  constructor <;> simp [Export, ExportReader, hc]

/-- Runtime configuration with an empty storage account name. -/
def unconfiguredRI : ExporterRuntimeInfo :=
  { StorageAccountName := "", StorageSasKey := "?sv=1", StorageContainerName := "ctr",
    StorageSasKeyType := "", HostNodeName := "aks-node-1" }

/-- Witness for C8: with an empty storage account name, `Export` and
`ExportReader` fail fast with no network calls. -/
theorem Export_storage_not_configured_witness :
    Export unconfiguredRI exportWitnessEnv "2023-01-01T10:00:00Z" [("item-a", "da")]
      = (.error "Storage not configured.", []) ∧
    ExportReader unconfiguredRI exportWitnessEnv "2023-01-01T10:00:00Z" "zip" "bytes"
      = (.error "Storage not configured.", []) :=
  Export_storage_not_configured unconfiguredRI exportWitnessEnv "2023-01-01T10:00:00Z"
    "zip" "bytes" [("item-a", "da")] (Or.inl rfl)

/-! ## Claims about the SystemPerf collector -/

/-- C9: `CheckSupported` fails with an error whose message names the
excluded value `connectedCluster` exactly when the exclusion list
contains `connectedCluster`; with an empty list it succeeds. -/
theorem CheckSupported_exclusion (collectorList : List String) :
    (Contains collectorList "connectedCluster" = true →
      ∃ a b, SystemPerfCollector.CheckSupported collectorList
        = some (a ++ "connectedCluster" ++ b)) ∧
    (Contains collectorList "connectedCluster" = false →
      SystemPerfCollector.CheckSupported collectorList = none) ∧
    SystemPerfCollector.CheckSupported [] = none := by
  refine ⟨fun h => ?_, fun h => ?_, rfl⟩
  · refine ⟨"Not included because '",
      "' is in COLLECTOR_LIST variable. Included values: "
        ++ String.intercalate " " collectorList, ?_⟩
    simp only [SystemPerfCollector.CheckSupported, h, if_true]
    rfl
  · simp [SystemPerfCollector.CheckSupported, h]

/-- Witness for C9: the list containing exactly `connectedCluster`
fails with a message naming it; the empty list succeeds. -/
theorem CheckSupported_exclusion_witness :
    (∃ a b, SystemPerfCollector.CheckSupported ["connectedCluster"]
      = some (a ++ "connectedCluster" ++ b)) ∧
    SystemPerfCollector.CheckSupported [] = none :=
  ⟨(CheckSupported_exclusion ["connectedCluster"]).1 (by decide),
   (CheckSupported_exclusion []).2.2⟩

theorem buildNodeResults_none (items : List NodeMetricSample)
    (h : ∃ s ∈ items, s.MemoryAsInt64 = none) :
    buildNodeResults items = none := by
  induction items with
  | nil => simp at h
  | cons s rest ih =>
    obtain ⟨s', hs', hna⟩ := h
    rcases List.mem_cons.mp hs' with heq | hmem
    · subst heq
      simp [buildNodeResults, hna]
    · cases hm : s.MemoryAsInt64 <;>
        simp [buildNodeResults, hm, ih ⟨s', hmem, hna⟩]

/-- C10: when creating the metrics client and listing node metrics both
succeed but some node's memory usage fails `AsInt64`, `Collect` returns
a nil error (the `return err` executes with `err` still holding the nil
result of the successful List call) while storing no `nodes` entry. -/
theorem systemPerfCollect_nil_error_on_memory_failure (env : SysPerfEnv)
    (items : List NodeMetricSample)
    (hcfg : env.newForConfig = .ok ())
    (hlist : env.nodeMetricsList = .ok items)
    (hbad : ∃ s ∈ items, s.MemoryAsInt64 = none) :
    (SystemPerfCollector.Collect env).1 = .ok () ∧
    mapLoad (SystemPerfCollector.Collect env).2 "nodes" = none := by
  have hnone := buildNodeResults_none items hbad
  constructor <;> simp [SystemPerfCollector.Collect, hcfg, hlist, hnone]

/-- A node metric sample whose memory usage fails `AsInt64`. -/
def badNodeSample : NodeMetricSample :=
  { Name := "node-1", CpuMilli := 250, MemoryAsInt64 := none }

/-- Environment for the C10 witness. -/
def sysPerfWitnessEnv : SysPerfEnv :=
  { newForConfig := .ok (), nodeMetricsList := .ok [badNodeSample],
    podMetricsList := .ok [] }

/-- Witness for C10. -/
theorem systemPerfCollect_nil_error_witness :
    (SystemPerfCollector.Collect sysPerfWitnessEnv).1 = .ok () ∧
    mapLoad (SystemPerfCollector.Collect sysPerfWitnessEnv).2 "nodes" = none :=
  systemPerfCollect_nil_error_on_memory_failure sysPerfWitnessEnv [badNodeSample]
    rfl rfl ⟨badNodeSample, by simp, rfl⟩

end AKSPeriscope
